import Mathlib

/-!
Shallow embedding of `src/native-state-x11.cpp` (glmark2's X11 native-state
adapter) and proofs of the specification's claims about it.

The adapter's interaction with the X server is modelled by explicit
environments: each native call that can fail or return data is a field of an
environment record supplied to the embedded operation.  The adapter's own
mutable members (`xdpy_`, `xwin_`, `properties_`, `wm_delete_window_`) form
the state record `X11State`.  Calls record their observable native effects
(window destroyed, `XCreateWindow` arguments, which WM hints were set) so that
the claims about those effects can be stated.
-/

/-- The caller-supplied window properties record (fields as used by
`native-state-x11.cpp`: width, height, fullscreen flag, visual id). -/
structure WindowProperties where
  width : Int
  height : Int
  fullscreen : Bool
  visual_id : Nat
deriving Repr, DecidableEq

/-- The mutable members of `NativeStateX11`: the display handle `xdpy_`
(`none` models a null `Display*`), the window handle `xwin_` (`none` models a
null `Window`), the stored copy `properties_`, and the `wm_delete_window_`
atom. -/
structure X11State where
  xdpy : Option Nat
  xwin : Option Nat
  props : WindowProperties
  wm_delete_window : Nat
deriving Repr, DecidableEq

/-- Environment for `get_main_screen_resolution`: the outcome of each XRandR
call in order.  `screenResources` models `XRRGetScreenResources` returning
non-null, `primaryOutput` models `XRRGetOutputPrimary` returning an output
other than `None`, `outputInfo` models `XRRGetOutputInfo` returning non-null,
and `crtcInfo` models `XRRGetCrtcInfo` (`some (w, h)` is a successful call
reporting the primary CRTC's current width and height). -/
structure RandrEnv where
  screenResources : Bool
  primaryOutput : Bool
  outputInfo : Bool
  crtcInfo : Option (Int × Int)
deriving Repr, DecidableEq

/-- Environment for one `create_window` call: the winsys options list
(name/value pairs, searched for `"position"`), the XRandR environment, whether
`XGetVisualInfo` finds a visual for a given visual id, the window handle
returned by `XCreateWindow` (`none` models a null return), the
`_NET_WM_STATE_FULLSCREEN` atom as interned with `only_if_exists = True`
(`none` models `None`), and the `WM_DELETE_WINDOW` atom. -/
structure X11Env where
  winsys_options : List (String × String)
  randr : RandrEnv
  visualFound : Nat → Bool
  newWindow : Option Nat
  fsAtom : Option Nat
  wmDeleteAtom : Nat

/-- The WM hint `create_window` installs after creating the window: either the
`_NET_WM_STATE` fullscreen property, or `XSizeHints` with fixed min/max size
equal to the given width/height and an optional `PPosition` x/y. -/
inductive HintAction where
  | fullscreenState : HintAction
  | sizeHints (width height : Int) (pos : Option (Int × Int)) : HintAction
deriving Repr, DecidableEq

/-- Observable native effects of one `create_window` call: whether
`XDestroyWindow` was called on a pre-existing window, the `(x, y, w, h)`
arguments passed to `XCreateWindow` (when that call was reached), and the WM
hint installed (when the call got that far). -/
structure CreateEffects where
  destroyed : Bool := false
  createArgs : Option (Int × Int × Int × Int) := none
  hint : Option HintAction := none
deriving Repr, DecidableEq

/-- Result of one `create_window` call: the returned boolean, the adapter
state afterwards, and the recorded native effects. -/
structure CreateResult where
  ok : Bool
  state : X11State
  eff : CreateEffects := {}
deriving Repr, DecidableEq

/-- `get_x11_position_option`: scan `Options::winsys_options` for entries
named `"position"`, the last match winning, defaulting to the empty string. -/
def get_x11_position_option (opts : List (String × String)) : String :=
  opts.foldl (fun acc opt => if opt.1 = "position" then opt.2 else acc) ""

/-- Modelled from the spec: `Util::split` with `SplitModeNormal` (defined in
`util.cpp`, which is not part of this excerpt) splits a string on a delimiter
character into consecutive fields. -/
def splitChars (delim : Char) : List Char → List Char → List (List Char)
  | [], acc => [acc.reverse]
  | c :: cs, acc =>
    if c = delim then acc.reverse :: splitChars delim cs []
    else splitChars delim cs (c :: acc)

/-- The comma-separated fields of a position string, via [[splitChars]]. -/
def splitOnComma (s : String) : List String :=
  (splitChars ',' s.data []).map (fun cs => { data := cs })

/-- Accumulate the value of a leading run of decimal digits, stopping at the
first non-digit. -/
def digitsVal : List Char → Nat → Nat
  | [], acc => acc
  | c :: cs, acc =>
    if 48 ≤ c.toNat ∧ c.toNat ≤ 57 then digitsVal cs (10 * acc + (c.toNat - 48))
    else acc

/-- Modelled from the spec: `Util::fromString<int>` (defined in `util.h`,
which is not part of this excerpt) parses a leading optionally-signed integer
by stream extraction, yielding 0 when the string carries no leading number. -/
def fromStringInt (s : String) : Int :=
  match s.data with
  | '-' :: cs => -(Int.ofNat (digitsVal cs 0))
  | '+' :: cs => Int.ofNat (digitsVal cs 0)
  | cs => Int.ofNat (digitsVal cs 0)

/-- `parse_pos`: split the string on commas; with at least two fields the
position is the first two fields each parsed as an int, otherwise `(0, 0)`. -/
def parse_pos (str : String) : Int × Int :=
  match splitOnComma str with
  | a :: b :: _ => (fromStringInt a, fromStringInt b)
  | _ => (0, 0)

/-- `NativeStateX11::init_display` result: the returned boolean, the state
afterwards, and whether `XOpenDisplay` was invoked. -/
structure InitResult where
  ok : Bool
  state : X11State
  openCalled : Bool
deriving Repr, DecidableEq

/-- `NativeStateX11::init_display`: open the display only when no connection
is held (`openResult` models the single `XOpenDisplay(NULL)` outcome), and
return whether a connection is held. -/
def init_display (openResult : Option Nat) (s : X11State) : InitResult :=
  match s.xdpy with
  | some _ => { ok := true, state := s, openCalled := false }
  | none =>
    { ok := openResult.isSome
      state := { s with xdpy := openResult }
      openCalled := true }

/-- `get_main_screen_resolution`: query the XRandR data in order, failing as
soon as any step fails, otherwise reporting the primary CRTC's width and
height. -/
def get_main_screen_resolution (env : RandrEnv) : Option (Int × Int) :=
  if !env.screenResources then none
  else if !env.primaryOutput then none
  else if !env.outputInfo then none
  else
    match env.crtcInfo with
    | none => none
    | some wh => some wh

/-- The destroy condition of `NativeStateX11::create_window` (line 166): an
existing window is destroyed when the fullscreen flag changed, or the request
is windowed and the stored width or height differs from the requested one. -/
def recreate_needed (stored req : WindowProperties) : Bool :=
  stored.fullscreen != req.fullscreen ||
    (req.fullscreen == false &&
      (stored.width != req.width || stored.height != req.height))

/-- The position override of a `create_window` call (lines 155–157 and
210–216): `some` of the parsed position when the `"position"` winsys option is
present and non-empty, `none` otherwise. -/
def cwPosOverride (env : X11Env) : Option (Int × Int) :=
  if get_x11_position_option env.winsys_options = "" then none
  else some (parse_pos (get_x11_position_option env.winsys_options))

/-- The `(x, y)` a `create_window` call passes to `XCreateWindow`: the parsed
position when the option is present, the default `(0, 0)` otherwise. -/
def cwPos (env : X11Env) : Int × Int :=
  (cwPosOverride env).getD (0, 0)

/-- Lines 181–195 of `create_window`: the stored properties after the desired
attributes are set — requested fullscreen flag and visual id; for a
fullscreen request the width/height are overwritten with the screen
resolution only when the query succeeds, and for a windowed request they are
the requested width/height. -/
def stored_after (env : X11Env) (stored req : WindowProperties) : WindowProperties :=
  let props1 : WindowProperties :=
    { stored with fullscreen := req.fullscreen, visual_id := req.visual_id }
  if req.fullscreen then
    match get_main_screen_resolution env.randr with
    | some wh => { props1 with width := wh.1, height := wh.2 }
    | none => props1
  else
    { props1 with width := req.width, height := req.height }

/-- The tail of `NativeStateX11::create_window` after the reuse/destroy
decision (`s` already has `xwin_` cleared when a window was destroyed, and
`destroyed` records it): store the requested attributes ([[stored_after]]);
look the visual up; create the window at [[cwPos]]; then install either the
EWMH fullscreen property (fullscreen with the atom interned) or fixed min/max
size hints carrying the position when a position option was given; finally
intern and register the `WM_DELETE_WINDOW` atom. -/
def create_window_rest (env : X11Env) (s : X11State) (p : WindowProperties)
    (destroyed : Bool) : CreateResult :=
  let pos := cwPos env
  let props2 := stored_after env s.props p
  let s2 : X11State := { s with props := props2 }
  if env.visualFound p.visual_id then
    match env.newWindow with
    | none =>
      { ok := false, state := { s2 with xwin := none }
        eff := { destroyed := destroyed
                 createArgs := some (pos.1, pos.2, props2.width, props2.height) } }
    | some nw =>
      let hint : HintAction :=
        if p.fullscreen && env.fsAtom.isSome then HintAction.fullscreenState
        else HintAction.sizeHints props2.width props2.height (cwPosOverride env)
      { ok := true
        state := { s2 with xwin := some nw, wm_delete_window := env.wmDeleteAtom }
        eff := { destroyed := destroyed
                 createArgs := some (pos.1, pos.2, props2.width, props2.height)
                 hint := some hint } }
  else
    { ok := false, state := s2, eff := { destroyed := destroyed } }

/-- `NativeStateX11::create_window`: fail when no display is open; with an
existing window, destroy it when [[recreate_needed]] holds and otherwise
return true at once reusing it; then continue with [[create_window_rest]]. -/
def create_window (env : X11Env) (s : X11State) (p : WindowProperties) :
    CreateResult :=
  match s.xdpy with
  | none => { ok := false, state := s }
  | some _ =>
    match s.xwin with
    | some _ =>
      if recreate_needed s.props p then
        create_window_rest env { s with xwin := none } p true
      else
        { ok := true, state := s }
    | none => create_window_rest env s p false

/-- A native call the adapter may make outside window creation. -/
inductive NativeCall where
  | mapWindow : NativeCall
deriving Repr, DecidableEq

/-- `NativeStateX11::visible`: map the window when asked to show it; the false
branch performs no native call and leaves the state untouched. -/
def visible (s : X11State) (v : Bool) : X11State × List NativeCall :=
  if v then (s, [NativeCall.mapWindow]) else (s, [])

/-- The X11 keysym `XK_Escape`. -/
def XK_Escape : Nat := 0xff1b

/-- One pending X event, as far as `should_quit` inspects it: a `KeyPress`
carrying the keysym `XLookupKeysym` reports, a `ClientMessage` carrying
`data.l[0]`, or anything else. -/
inductive XEvent where
  | keyPress (keysym : Nat) : XEvent
  | clientMessage (data0 : Nat) : XEvent
  | other : XEvent
deriving Repr, DecidableEq

/-- `NativeStateX11::should_quit`: with no pending event return false leaving
the queue untouched; otherwise consume exactly one event, returning true for
a `KeyPress` of `XK_Escape` or a `ClientMessage` whose first datum is the
stored `wm_delete_window_` atom, and false for everything else.  The result
pairs the returned boolean with the remaining queue. -/
def should_quit (s : X11State) (pending : List XEvent) : Bool × List XEvent :=
  match pending with
  | [] => (false, [])
  | e :: rest =>
    match e with
    | XEvent.keyPress ks => (ks == XK_Escape, rest)
    | XEvent.clientMessage d => (d == s.wm_delete_window, rest)
    | XEvent.other => (false, rest)

/-- The spec's reuse condition: same fullscreen flag and, when the request is
windowed, the same width and height. -/
def reuse_ok (stored req : WindowProperties) : Prop :=
  req.fullscreen = stored.fullscreen ∧
    (req.fullscreen = false → (req.width = stored.width ∧ req.height = stored.height))

instance (stored req : WindowProperties) : Decidable (reuse_ok stored req) := by
  unfold reuse_ok; infer_instance

/-- The width and height a (non-reusing) `create_window` call stores: for a
fullscreen request the screen resolution when the query succeeds and the
previously stored size when it fails, and the requested size otherwise. -/
def effective_size (env : X11Env) (stored req : WindowProperties) : Int × Int :=
  if req.fullscreen then
    match get_main_screen_resolution env.randr with
    | some wh => wh
    | none => (stored.width, stored.height)
  else (req.width, req.height)

/-! ## Helper lemmas -/

theorem recreate_needed_eq_false_iff (stored req : WindowProperties) :
    recreate_needed stored req = false ↔ reuse_ok stored req := by
  unfold recreate_needed reuse_ok
  cases hr : req.fullscreen <;> cases hs : stored.fullscreen <;> simp [hr, hs]
  tauto

theorem stored_after_spec (env : X11Env) (stored req : WindowProperties) :
    stored_after env stored req =
      { width := (effective_size env stored req).1
        height := (effective_size env stored req).2
        fullscreen := req.fullscreen
        visual_id := req.visual_id } := by
  unfold stored_after effective_size
  cases hf : req.fullscreen
  · simp
  · simp only [if_true]
    cases hres : get_main_screen_resolution env.randr <;> simp

theorem create_window_rest_destroyed_eq (env : X11Env) (s : X11State)
    (p : WindowProperties) (dz : Bool) :
    (create_window_rest env s p dz).eff.destroyed = dz := by
  unfold create_window_rest
  split
  · cases env.newWindow <;> simp
  · rfl

theorem create_window_rest_props (env : X11Env) (s : X11State)
    (p : WindowProperties) (dz : Bool) :
    (create_window_rest env s p dz).state.props = stored_after env s.props p := by
  unfold create_window_rest
  split
  · cases env.newWindow <;> simp
  · rfl

theorem create_window_rest_success (env : X11Env) (s : X11State)
    (p : WindowProperties) (dz : Bool)
    (hvis : env.visualFound p.visual_id = true)
    (nw : Nat) (hnw : env.newWindow = some nw) :
    create_window_rest env s p dz =
      { ok := true
        state := { xdpy := s.xdpy, xwin := some nw
                   props := stored_after env s.props p
                   wm_delete_window := env.wmDeleteAtom }
        eff := { destroyed := dz
                 createArgs := some ((cwPos env).1, (cwPos env).2,
                   (stored_after env s.props p).width,
                   (stored_after env s.props p).height)
                 hint := some (if p.fullscreen && env.fsAtom.isSome then
                     HintAction.fullscreenState
                   else
                     HintAction.sizeHints (stored_after env s.props p).width
                       (stored_after env s.props p).height (cwPosOverride env)) } } := by
  unfold create_window_rest
  rw [hnw]
  simp [hvis]

theorem create_window_rest_fail_vis (env : X11Env) (s : X11State)
    (p : WindowProperties) (dz : Bool)
    (hvis : env.visualFound p.visual_id = false) :
    create_window_rest env s p dz =
      { ok := false
        state := { s with props := stored_after env s.props p }
        eff := { destroyed := dz } } := by
  unfold create_window_rest
  simp [hvis]

theorem create_window_rest_fail_win (env : X11Env) (s : X11State)
    (p : WindowProperties) (dz : Bool)
    (hvis : env.visualFound p.visual_id = true)
    (hnw : env.newWindow = none) :
    create_window_rest env s p dz =
      { ok := false
        state := { s with props := stored_after env s.props p, xwin := none }
        eff := { destroyed := dz
                 createArgs := some ((cwPos env).1, (cwPos env).2,
                   (stored_after env s.props p).width,
                   (stored_after env s.props p).height) } } := by
  unfold create_window_rest
  rw [hnw]
  simp [hvis]

theorem create_window_destroy_branch (env : X11Env) (s : X11State)
    (p : WindowProperties) (d w : Nat)
    (hd : s.xdpy = some d) (hw : s.xwin = some w)
    (hrec : recreate_needed s.props p = true) :
    create_window env s p = create_window_rest env { s with xwin := none } p true := by
  obtain ⟨xdpy, xwin, props, wmd⟩ := s
  simp only at hd hw
  subst hd; subst hw
  simp [create_window, hrec]

theorem create_window_reuse_branch (env : X11Env) (s : X11State)
    (p : WindowProperties) (d w : Nat)
    (hd : s.xdpy = some d) (hw : s.xwin = some w)
    (hrec : recreate_needed s.props p = false) :
    create_window env s p = { ok := true, state := s } := by
  obtain ⟨xdpy, xwin, props, wmd⟩ := s
  simp only at hd hw
  subst hd; subst hw
  simp [create_window, hrec]

theorem create_window_fresh_branch (env : X11Env) (s : X11State)
    (p : WindowProperties) (d : Nat)
    (hd : s.xdpy = some d) (hw : s.xwin = none) :
    create_window env s p = create_window_rest env s p false := by
  obtain ⟨xdpy, xwin, props, wmd⟩ := s
  simp only at hd hw
  subst hd; subst hw
  simp [create_window]

/-! ## Claims -/

/-- C5: for every input string to the position parser, a string with fewer
than two comma-separated fields parses to `(0, 0)`; `"12,34"` parses to
`(12, 34)`; `"12,34,56"` also parses to `(12, 34)` — only the first two
fields contribute. -/
theorem parse_pos_claim :
    (∀ s : String, (splitOnComma s).length < 2 → parse_pos s = (0, 0)) ∧
    parse_pos "" = (0, 0) ∧
    parse_pos "12,34" = (12, 34) ∧
    parse_pos "12,34,56" = (12, 34) := by
  refine ⟨?_, by decide, by decide, by decide⟩
  intro s h
  unfold parse_pos
  match hm : splitOnComma s with
  | [] => rfl
  | [a] => rfl
  | a :: b :: rest => rw [hm] at h; simp at h; omega

theorem parse_pos_claim_witness :
    (splitOnComma "12").length < 2 ∧ parse_pos "12" = (0, 0) :=
  ⟨by decide, parse_pos_claim.1 "12" (by decide)⟩

/-- C7: `init_display` is idempotent — when a connection is already held the
state is unchanged and `XOpenDisplay` is not invoked; when none is held the
single open attempt's result becomes the connection (no retry); the returned
boolean is true exactly when a connection is held afterwards. -/
theorem init_display_claim (openResult : Option Nat) (s : X11State) :
    (∀ d, s.xdpy = some d →
      init_display openResult s = { ok := true, state := s, openCalled := false }) ∧
    (s.xdpy = none →
      (init_display openResult s).state.xdpy = openResult ∧
      (init_display openResult s).openCalled = true) ∧
    (init_display openResult s).ok = (init_display openResult s).state.xdpy.isSome := by
  obtain ⟨xdpy, xwin, props, wmd⟩ := s
  cases xdpy <;> simp [init_display]

theorem init_display_claim_witness :
    init_display (some 9) ⟨some 1, none, ⟨0, 0, false, 0⟩, 0⟩ =
      { ok := true, state := ⟨some 1, none, ⟨0, 0, false, 0⟩, 0⟩, openCalled := false } :=
  (init_display_claim (some 9) ⟨some 1, none, ⟨0, 0, false, 0⟩, 0⟩).1 1 rfl

/-- C8: the visibility toggle maps the window when called with true and does
nothing at all — no native call, state unchanged — when called with false. -/
theorem visible_claim (s : X11State) :
    visible s true = (s, [NativeCall.mapWindow]) ∧ visible s false = (s, []) :=
  ⟨rfl, rfl⟩

/-- C4: the quit poll returns false leaving the queue untouched when no event
is pending; otherwise it consumes exactly one event and returns true exactly
when that event is an escape key-press or a window-manager close request. -/
theorem should_quit_claim (s : X11State) (pending : List XEvent) :
    (pending = [] → should_quit s pending = (false, [])) ∧
    (∀ e rest, pending = e :: rest →
      (should_quit s pending).2 = rest ∧
      ((should_quit s pending).1 = true ↔
        e = XEvent.keyPress XK_Escape ∨
        e = XEvent.clientMessage s.wm_delete_window)) := by
  constructor
  · intro h; subst h; rfl
  · intro e rest h; subst h
    cases e with
    | keyPress ks => simp [should_quit]
    | clientMessage d0 => simp [should_quit]
    | other => simp [should_quit]

theorem should_quit_claim_witness :
    (should_quit ⟨some 1, some 2, ⟨800, 600, false, 4⟩, 5⟩ [XEvent.clientMessage 5]).1 = true ∧
    (should_quit ⟨some 1, some 2, ⟨800, 600, false, 4⟩, 5⟩ [XEvent.clientMessage 5]).2 = [] := by
  have h := (should_quit_claim ⟨some 1, some 2, ⟨800, 600, false, 4⟩, 5⟩
      [XEvent.clientMessage 5]).2 (XEvent.clientMessage 5) [] rfl
  exact ⟨h.2.mpr (Or.inr rfl), h.1⟩

/-- C1: with a window already existing, `create_window` reuses it — no
destroy, no create, immediate true, state untouched — exactly when the
requested fullscreen flag equals the stored one and, for a windowed request,
the requested size equals the stored size; otherwise the window is destroyed
and, when the native calls succeed, a new one is created. -/
theorem create_window_reuse_iff_claim (env : X11Env) (s : X11State)
    (p : WindowProperties) (d w : Nat)
    (hd : s.xdpy = some d) (hw : s.xwin = some w) :
    (reuse_ok s.props p → create_window env s p = { ok := true, state := s }) ∧
    (¬ reuse_ok s.props p →
      (create_window env s p).eff.destroyed = true ∧
      (env.visualFound p.visual_id = true → ∀ nw, env.newWindow = some nw →
        (create_window env s p).ok = true ∧
        (create_window env s p).state.xwin = some nw)) := by
  by_cases hrec : recreate_needed s.props p = true
  · constructor
    · intro hreuse
      rw [(recreate_needed_eq_false_iff s.props p).mpr hreuse] at hrec
      exact absurd hrec (by simp)
    · intro _
      rw [create_window_destroy_branch env s p d w hd hw hrec]
      refine ⟨create_window_rest_destroyed_eq env _ p true, ?_⟩
      intro hvis nw hnw
      rw [create_window_rest_success env _ p true hvis nw hnw]
      exact ⟨rfl, rfl⟩
  · rw [Bool.not_eq_true] at hrec
    constructor
    · intro _
      exact create_window_reuse_branch env s p d w hd hw hrec
    · intro hnreuse
      exact absurd ((recreate_needed_eq_false_iff s.props p).mp hrec) hnreuse

theorem create_window_reuse_iff_claim_witness :
    reuse_ok (⟨800, 600, false, 4⟩ : WindowProperties) ⟨800, 600, false, 9⟩ ∧
    create_window
        ⟨[], ⟨true, true, true, some (1920, 1080)⟩, fun _ => true, some 7, none, 3⟩
        ⟨some 1, some 2, ⟨800, 600, false, 4⟩, 5⟩ ⟨800, 600, false, 9⟩ =
      { ok := true, state := ⟨some 1, some 2, ⟨800, 600, false, 4⟩, 5⟩ } :=
  ⟨by decide,
    (create_window_reuse_iff_claim
      ⟨[], ⟨true, true, true, some (1920, 1080)⟩, fun _ => true, some 7, none, 3⟩
      ⟨some 1, some 2, ⟨800, 600, false, 4⟩, 5⟩ ⟨800, 600, false, 9⟩ 1 2 rfl rfl).1
      (by decide)⟩

/-- C9 (implicit): the reuse decision never looks at the visual id — whenever
a window exists, the fullscreen flag matches and (if windowed) the sizes
match, the call returns true with the state, the stored `visual_id` included,
entirely unchanged, whatever `visual_id` the caller supplied. -/
theorem create_window_reuse_keeps_state_claim (env : X11Env) (s : X11State)
    (p : WindowProperties) (d w : Nat)
    (hd : s.xdpy = some d) (hw : s.xwin = some w)
    (hfs : p.fullscreen = s.props.fullscreen)
    (hdims : p.fullscreen = false →
      p.width = s.props.width ∧ p.height = s.props.height) :
    create_window env s p = { ok := true, state := s } := by
  have hrec : recreate_needed s.props p = false :=
    (recreate_needed_eq_false_iff s.props p).mpr ⟨hfs, hdims⟩
  exact create_window_reuse_branch env s p d w hd hw hrec

theorem create_window_reuse_keeps_state_claim_witness :
    create_window
        ⟨[], ⟨true, true, true, some (1920, 1080)⟩, fun _ => true, some 7, none, 3⟩
        ⟨some 1, some 2, ⟨800, 600, false, 4⟩, 5⟩ ⟨800, 600, false, 99⟩ =
      { ok := true, state := ⟨some 1, some 2, ⟨800, 600, false, 4⟩, 5⟩ } :=
  create_window_reuse_keeps_state_claim
    ⟨[], ⟨true, true, true, some (1920, 1080)⟩, fun _ => true, some 7, none, 3⟩
    ⟨some 1, some 2, ⟨800, 600, false, 4⟩, 5⟩ ⟨800, 600, false, 99⟩ 1 2 rfl rfl
    rfl (by intro h; exact ⟨rfl, rfl⟩)

/-- C6: toggling fullscreen on and then back off with the original windowed
size destroys and recreates the window on both transitions. -/
theorem create_window_toggle_claim (envA envB : X11Env) (s : X11State)
    (pA pB : WindowProperties) (d w0 : Nat)
    (hd : s.xdpy = some d) (hw : s.xwin = some w0)
    (hsfs : s.props.fullscreen = false)
    (hA : pA.fullscreen = true)
    (hB : pB.fullscreen = false)
    (_hBw : pB.width = s.props.width) (_hBh : pB.height = s.props.height)
    (hAvis : envA.visualFound pA.visual_id = true)
    (w1 : Nat) (hAw : envA.newWindow = some w1)
    (hBvis : envB.visualFound pB.visual_id = true)
    (w2 : Nat) (hBw2 : envB.newWindow = some w2) :
    (create_window envA s pA).eff.destroyed = true ∧
    (create_window envA s pA).ok = true ∧
    (create_window envA s pA).state.xwin = some w1 ∧
    (create_window envB (create_window envA s pA).state pB).eff.destroyed = true ∧
    (create_window envB (create_window envA s pA).state pB).ok = true ∧
    (create_window envB (create_window envA s pA).state pB).state.xwin = some w2 := by
  have hrecA : recreate_needed s.props pA = true := by
    simp [recreate_needed, hsfs, hA]
  rw [create_window_destroy_branch envA s pA d w0 hd hw hrecA,
    create_window_rest_success envA _ pA true hAvis w1 hAw]
  refine ⟨rfl, rfl, rfl, ?_⟩
  set s1 : X11State :=
    { xdpy := s.xdpy, xwin := some w1
      props := stored_after envA s.props pA
      wm_delete_window := envA.wmDeleteAtom } with hs1
  have hsa : (stored_after envA s.props pA).fullscreen = true := by
    simp [stored_after_spec, hA]
  have hrecB : recreate_needed s1.props pB = true := by
    simp [recreate_needed, hs1, hsa, hB]
  have hs1d : s1.xdpy = some d := by rw [hs1]; simpa using hd
  rw [create_window_destroy_branch envB s1 pB d w1 hs1d rfl hrecB,
    create_window_rest_success envB _ pB true hBvis w2 hBw2]
  exact ⟨rfl, rfl, rfl⟩

theorem create_window_toggle_claim_witness :
    ((create_window
        ⟨[], ⟨true, true, true, some (1920, 1080)⟩, fun _ => true, some 7, none, 3⟩
        ⟨some 1, some 2, ⟨800, 600, false, 4⟩, 5⟩ ⟨800, 600, true, 4⟩).eff.destroyed = true) ∧
    ((create_window
        ⟨[], ⟨true, true, true, some (1920, 1080)⟩, fun _ => true, some 8, none, 3⟩
        (create_window
          ⟨[], ⟨true, true, true, some (1920, 1080)⟩, fun _ => true, some 7, none, 3⟩
          ⟨some 1, some 2, ⟨800, 600, false, 4⟩, 5⟩ ⟨800, 600, true, 4⟩).state
        ⟨800, 600, false, 4⟩).eff.destroyed = true) := by
  have h := create_window_toggle_claim
    ⟨[], ⟨true, true, true, some (1920, 1080)⟩, fun _ => true, some 7, none, 3⟩
    ⟨[], ⟨true, true, true, some (1920, 1080)⟩, fun _ => true, some 8, none, 3⟩
    ⟨some 1, some 2, ⟨800, 600, false, 4⟩, 5⟩ ⟨800, 600, true, 4⟩ ⟨800, 600, false, 4⟩
    1 2 rfl rfl rfl rfl rfl rfl rfl rfl 7 rfl rfl 8 rfl
  exact ⟨h.1, h.2.2.2.1⟩

/-- C3: for a fullscreen request that does not reuse the existing window, a
successful screen-resolution query overwrites the stored size with the
primary output's resolution; a failed query — which results whenever any of
its XRandR steps fails — silently keeps the previously stored size, with no
error return: the call still succeeds when the remaining native calls do. -/
theorem create_window_fullscreen_size_claim (env : X11Env) (s : X11State)
    (p : WindowProperties) (d : Nat) (hd : s.xdpy = some d)
    (hfs : p.fullscreen = true)
    (hnoreuse : s.xwin = none ∨ recreate_needed s.props p = true) :
    (∀ sw sh, get_main_screen_resolution env.randr = some (sw, sh) →
      (create_window env s p).state.props.width = sw ∧
      (create_window env s p).state.props.height = sh) ∧
    (get_main_screen_resolution env.randr = none →
      (create_window env s p).state.props.width = s.props.width ∧
      (create_window env s p).state.props.height = s.props.height ∧
      (env.visualFound p.visual_id = true → ∀ nw, env.newWindow = some nw →
        (create_window env s p).ok = true)) ∧
    (env.randr.screenResources = false ∨ env.randr.primaryOutput = false ∨
      env.randr.outputInfo = false ∨ env.randr.crtcInfo = none →
      get_main_screen_resolution env.randr = none) := by
  have key : ∃ s1 dz, s1.props = s.props ∧
      create_window env s p = create_window_rest env s1 p dz := by
    cases hxw : s.xwin with
    | none => exact ⟨s, false, rfl, create_window_fresh_branch env s p d hd hxw⟩
    | some w =>
      rcases hnoreuse with h | h
      · rw [hxw] at h; exact absurd h (by simp)
      · exact ⟨{ s with xwin := none }, true, rfl,
          create_window_destroy_branch env s p d w hd hxw h⟩
  obtain ⟨s1, dz, hsp, hcw⟩ := key
  rw [hcw]
  refine ⟨?_, ?_, ?_⟩
  · intro sw sh hres
    rw [create_window_rest_props, hsp, stored_after_spec]
    simp [effective_size, hfs, hres]
  · intro hres
    refine ⟨?_, ?_, ?_⟩
    · rw [create_window_rest_props, hsp, stored_after_spec]
      simp [effective_size, hfs, hres]
    · rw [create_window_rest_props, hsp, stored_after_spec]
      simp [effective_size, hfs, hres]
    · intro hvis nw hnw
      rw [create_window_rest_success env s1 p dz hvis nw hnw]
  · intro h
    unfold get_main_screen_resolution
    rcases h with h | h | h | h <;> simp [h]

theorem create_window_fullscreen_size_claim_witness :
    (create_window
        ⟨[], ⟨false, true, true, some (1920, 1080)⟩, fun _ => true, some 7, none, 3⟩
        ⟨some 1, none, ⟨800, 600, false, 4⟩, 5⟩ ⟨200, 100, true, 4⟩).state.props.width = 800 ∧
    (create_window
        ⟨[], ⟨false, true, true, some (1920, 1080)⟩, fun _ => true, some 7, none, 3⟩
        ⟨some 1, none, ⟨800, 600, false, 4⟩, 5⟩ ⟨200, 100, true, 4⟩).state.props.height = 600 ∧
    (create_window
        ⟨[], ⟨false, true, true, some (1920, 1080)⟩, fun _ => true, some 7, none, 3⟩
        ⟨some 1, none, ⟨800, 600, false, 4⟩, 5⟩ ⟨200, 100, true, 4⟩).ok = true := by
  have h := create_window_fullscreen_size_claim
    ⟨[], ⟨false, true, true, some (1920, 1080)⟩, fun _ => true, some 7, none, 3⟩
    ⟨some 1, none, ⟨800, 600, false, 4⟩, 5⟩ ⟨200, 100, true, 4⟩ 1 rfl rfl (Or.inl rfl)
  have h2 := h.2.1 rfl
  exact ⟨h2.1, h2.2.1, h2.2.2 rfl 7 rfl⟩

/-- C2 counterexample: with position option `"12,34"`, a fullscreen request
and the fullscreen atom unavailable, the created — fullscreen — window IS
positioned by the option: `XCreateWindow` receives x = 12, y = 34 and the
fallback size hints carry the position (12, 34), contradicting the claim that
the parsed position is applied only to non-fullscreen windows and that a
fullscreen window falls back to plain fixed min/max size hints. -/
theorem create_window_position_claim_cex :
    ((⟨0, 0, true, 4⟩ : WindowProperties).fullscreen = true) ∧
    (create_window
        ⟨[("position", "12,34")], ⟨true, true, true, some (1920, 1080)⟩,
          fun _ => true, some 7, none, 3⟩
        ⟨some 1, none, ⟨800, 600, false, 4⟩, 0⟩
        ⟨0, 0, true, 4⟩).eff.createArgs = some (12, 34, 1920, 1080) ∧
    (create_window
        ⟨[("position", "12,34")], ⟨true, true, true, some (1920, 1080)⟩,
          fun _ => true, some 7, none, 3⟩
        ⟨some 1, none, ⟨800, 600, false, 4⟩, 0⟩
        ⟨0, 0, true, 4⟩).eff.hint =
      some (HintAction.sizeHints 1920 1080 (some (12, 34))) :=
  ⟨rfl, by decide, by decide⟩

/-- C2 amended: whenever `create_window` actually creates a window,
`XCreateWindow` receives the parsed position exactly when the position option
is present (and the default (0, 0) otherwise), regardless of fullscreen; the
extensions-protocol fullscreen-state hint is installed exactly for a
fullscreen window with the atom available; in every other case — windowed, or
fullscreen without the atom — fixed min/max size hints matching the stored
size are installed, carrying the position exactly when the option is
present. -/
theorem create_window_position_claim (env : X11Env) (s : X11State)
    (p : WindowProperties) (d : Nat) (hd : s.xdpy = some d)
    (hnoreuse : s.xwin = none ∨ recreate_needed s.props p = true)
    (hvis : env.visualFound p.visual_id = true)
    (nw : Nat) (hnw : env.newWindow = some nw) :
    (create_window env s p).eff.createArgs =
      some ((cwPos env).1, (cwPos env).2,
        (create_window env s p).state.props.width,
        (create_window env s p).state.props.height) ∧
    (get_x11_position_option env.winsys_options ≠ "" →
      cwPos env = parse_pos (get_x11_position_option env.winsys_options) ∧
      cwPosOverride env = some (parse_pos (get_x11_position_option env.winsys_options))) ∧
    (get_x11_position_option env.winsys_options = "" →
      cwPos env = (0, 0) ∧ cwPosOverride env = none) ∧
    (p.fullscreen = true → env.fsAtom.isSome = true →
      (create_window env s p).eff.hint = some HintAction.fullscreenState) ∧
    ((p.fullscreen = false ∨ env.fsAtom = none) →
      (create_window env s p).eff.hint =
        some (HintAction.sizeHints (create_window env s p).state.props.width
          (create_window env s p).state.props.height (cwPosOverride env))) := by
  have key : ∃ s1 dz, s1.props = s.props ∧
      create_window env s p = create_window_rest env s1 p dz := by
    cases hxw : s.xwin with
    | none => exact ⟨s, false, rfl, create_window_fresh_branch env s p d hd hxw⟩
    | some w =>
      rcases hnoreuse with h | h
      · rw [hxw] at h; exact absurd h (by simp)
      · exact ⟨{ s with xwin := none }, true, rfl,
          create_window_destroy_branch env s p d w hd hxw h⟩
  obtain ⟨s1, dz, hsp, hcw⟩ := key
  rw [hcw, create_window_rest_success env s1 p dz hvis nw hnw]
  refine ⟨rfl, ?_, ?_, ?_, ?_⟩
  · intro h; simp [cwPos, cwPosOverride, h]
  · intro h; simp [cwPos, cwPosOverride, h]
  · intro hpf hatom; simp [hpf, hatom]
  · intro h
    rcases h with h | h
    · simp [h]
    · simp [h]

theorem create_window_position_claim_witness :
    (create_window
        ⟨[("position", "12,34")], ⟨true, true, true, some (1920, 1080)⟩,
          fun _ => true, some 7, none, 3⟩
        ⟨some 1, none, ⟨800, 600, false, 4⟩, 0⟩
        ⟨640, 480, false, 4⟩).eff.createArgs = some (12, 34, 640, 480) := by
  have h := create_window_position_claim
    ⟨[("position", "12,34")], ⟨true, true, true, some (1920, 1080)⟩,
      fun _ => true, some 7, none, 3⟩
    ⟨some 1, none, ⟨800, 600, false, 4⟩, 0⟩ ⟨640, 480, false, 4⟩ 1 rfl (Or.inl rfl)
    rfl 7 rfl
  rw [h.1]
  decide

/-- C10 (implicit): a failing `create_window` call that destroyed the
existing window is not atomic — when the visual lookup or the window creation
then fails, the call returns false with the stored window handle already
null, the stored fullscreen flag and visual id already set to the requested
ones, and the stored dimensions already set to the values this call computes
(screen resolution for fullscreen when the query succeeds, the previous size
when it fails, the requested size when windowed); nothing is restored. -/
theorem create_window_fail_claim (env : X11Env) (s : X11State)
    (p : WindowProperties) (d w : Nat)
    (hd : s.xdpy = some d) (hw : s.xwin = some w)
    (hrec : recreate_needed s.props p = true)
    (hfail : env.visualFound p.visual_id = false ∨ env.newWindow = none) :
    (create_window env s p).ok = false ∧
    (create_window env s p).eff.destroyed = true ∧
    (create_window env s p).state.xwin = none ∧
    (create_window env s p).state.props.fullscreen = p.fullscreen ∧
    (create_window env s p).state.props.visual_id = p.visual_id ∧
    (create_window env s p).state.props.width = (effective_size env s.props p).1 ∧
    (create_window env s p).state.props.height = (effective_size env s.props p).2 := by
  rw [create_window_destroy_branch env s p d w hd hw hrec]
  rcases hfail with h | h
  · rw [create_window_rest_fail_vis env _ p true h]
    refine ⟨rfl, rfl, rfl, ?_, ?_, ?_, ?_⟩ <;> simp [stored_after_spec]
  · by_cases hv : env.visualFound p.visual_id = true
    · rw [create_window_rest_fail_win env _ p true hv h]
      refine ⟨rfl, rfl, rfl, ?_, ?_, ?_, ?_⟩ <;> simp [stored_after_spec]
    · rw [Bool.not_eq_true] at hv
      rw [create_window_rest_fail_vis env _ p true hv]
      refine ⟨rfl, rfl, rfl, ?_, ?_, ?_, ?_⟩ <;> simp [stored_after_spec]

theorem create_window_fail_claim_witness :
    (create_window
        ⟨[], ⟨true, true, true, some (1920, 1080)⟩, fun _ => false, some 7, none, 3⟩
        ⟨some 1, some 2, ⟨800, 600, false, 4⟩, 5⟩ ⟨640, 480, false, 9⟩).ok = false ∧
    (create_window
        ⟨[], ⟨true, true, true, some (1920, 1080)⟩, fun _ => false, some 7, none, 3⟩
        ⟨some 1, some 2, ⟨800, 600, false, 4⟩, 5⟩ ⟨640, 480, false, 9⟩).state.xwin = none ∧
    (create_window
        ⟨[], ⟨true, true, true, some (1920, 1080)⟩, fun _ => false, some 7, none, 3⟩
        ⟨some 1, some 2, ⟨800, 600, false, 4⟩, 5⟩
        ⟨640, 480, false, 9⟩).state.props.visual_id = 9 := by
  have h := create_window_fail_claim
    ⟨[], ⟨true, true, true, some (1920, 1080)⟩, fun _ => false, some 7, none, 3⟩
    ⟨some 1, some 2, ⟨800, 600, false, 4⟩, 5⟩ ⟨640, 480, false, 9⟩ 1 2 rfl rfl
    (by decide) (Or.inl rfl)
  exact ⟨h.1, h.2.2.1, h.2.2.2.2.1⟩
